import Mathlib

/-!
Verification of the `vans_story_image` upload service.

This file shallowly embeds the upload processing pipeline of the repository:
the `POST /api/upload` route handler (`app/api/upload/route.ts`), the WebP
transcoder wrapper (`app/utils/webpConverter.ts`), the S3 uploader
(`app/utils/s3Uploader.ts`), the API-key gate (`app/utils/auth.ts`) and the
error classes (`app/utils/errors.ts`).

External collaborators (the `sharp` codec engine, the AWS S3 client, the
wall clock and `Math.random`) are modelled as explicit parameters (oracles),
so that the embedded functions are pure and every theorem quantifies over
their behaviour.  JavaScript numbers that the code only ever compares as
integers (sizes, quality) are modelled as `Nat`/`Int`; environment variables
are `Option String` with JavaScript truthiness (`none` and `some ""` are both
falsy, matching `!process.env.X`).
-/

/-- Bytes of a Node `Buffer` / `ArrayBuffer`. -/
abbrev Buffer := List Nat

/-- JavaScript truthiness of a string-valued environment variable or header:
`undefined`/`null` (`none`) and the empty string are falsy. -/
def present : Option String → Bool
  | none => false
  | some s => !s.isEmpty

/-- The JavaScript expression `x || d` for a possibly-absent string `x`:
the default `d` is used when `x` is `undefined` or the empty string. -/
def jsOrStr : Option String → String → String
  | none, d => d
  | some s, d => if s.isEmpty then d else s

/-- `String.prototype.substring(start, stop)` for the in-range uses in this
code base (`start ≤ stop`); out-of-range indices are clamped, as in JS. -/
def jsSubstring (s : String) (start stop : Nat) : String :=
  { data := (s.data.drop start).take (stop - start) }

/-- `String.prototype.substring(start)` (to the end of the string). -/
def jsSubstringFrom (s : String) (start : Nat) : String :=
  { data := s.data.drop start }

/-- `str.replace(/[-:]/g, "")`: delete every dash and colon. -/
def stripDashColon (s : String) : String :=
  { data := s.data.filter (fun c => c != '-' && c != ':') }

/-- `str.replace("T", "_")` on the character level: JS `replace` with a plain
string pattern rewrites only the first occurrence. -/
def replaceFirstChar : List Char → Char → Char → List Char
  | [], _, _ => []
  | c :: cs, a, b => if c = a then b :: cs else c :: replaceFirstChar cs a b

/-- Zero-padded two-digit decimal field of `Date.prototype.toISOString`. -/
def pad2 (n : Nat) : String :=
  if n < 10 then "0" ++ toString n else toString n

/-- Zero-padded three-digit milliseconds field of `toISOString`. -/
def pad3 (n : Nat) : String :=
  if n < 10 then "00" ++ toString n
  else if n < 100 then "0" ++ toString n
  else toString n

/-- Zero-padded four-digit year field of `toISOString`. -/
def pad4 (n : Nat) : String :=
  if n < 10 then "000" ++ toString n
  else if n < 100 then "00" ++ toString n
  else if n < 1000 then "0" ++ toString n
  else toString n

/-- A wall-clock instant as decomposed by `Date.prototype.toISOString`
(`new Date()` at key-generation time). -/
structure DateTime where
  year : Nat
  month : Nat
  day : Nat
  hour : Nat
  minute : Nat
  second : Nat
  ms : Nat
deriving DecidableEq

/-- `new Date().toISOString()`: `YYYY-MM-DDTHH:mm:ss.sssZ`. -/
def toISOString (d : DateTime) : String :=
  pad4 d.year ++ "-" ++ pad2 d.month ++ "-" ++ pad2 d.day ++ "T" ++
  pad2 d.hour ++ ":" ++ pad2 d.minute ++ ":" ++ pad2 d.second ++ "." ++
  pad3 d.ms ++ "Z"

/-- `s3Uploader.ts` line 143:
`new Date().toISOString().replace(/[-:]/g, '').replace('T', '_').substring(0, 15)`. -/
def timestampOf (d : DateTime) : String :=
  jsSubstring { data := replaceFirstChar (stripDashColon (toISOString d)).data 'T' '_' } 0 15

/-- Lowercase hexadecimal digit characters, as produced by
`Number.prototype.toString(16)`. -/
def hexDigitChar (d : Fin 16) : Char :=
  if d.val < 10 then Char.ofNat (48 + d.val) else Char.ofNat (87 + d.val)

/-- `Math.random().toString(16)` for a draw in `[0, 1)`.  A double in `[0, 1)`
has a finite hexadecimal fraction expansion; `toString(16)` prints `"0"` for
zero and otherwise `"0."` followed by that expansion with trailing zero digits
removed.  The draw is modelled by its (stripped) digit list. -/
def jsToString16Frac (digits : List (Fin 16)) : String :=
  if digits.isEmpty then "0" else "0." ++ { data := digits.map hexDigitChar }

/-- The numeric value of a draw given by its hex-fraction digits. -/
def fracValue (digits : List (Fin 16)) : ℚ :=
  digits.foldr (fun d acc => ((d.val : ℚ) + acc) / 16) 0

/-- `s3Uploader.ts` line 144: `Math.random().toString(16).substring(2, 10)`. -/
def randomStringOf (digits : List (Fin 16)) : String :=
  jsSubstring (jsToString16Frac digits) 2 10

/-- The `S3UploadError` class of `errors.ts` (default code
`'S3_UPLOAD_ERROR'`; `uploadToS3` never passes an explicit code). -/
structure S3UploadError where
  message : String
  code : String := "S3_UPLOAD_ERROR"
deriving DecidableEq

/-- `'환경 변수가 누락되었습니다.'` — the message thrown by `uploadToS3` when a
required environment variable is missing. -/
def envMissingMsg : String := "환경 변수가 누락되었습니다."

/-- The upload options interface of `s3Uploader.ts` (`S3UploadOptions`).
The source field `prefix` is rendered here as `keyPrefix`. -/
structure S3UploadOptions where
  contentType : Option String := none
  publicRead : Option Bool := none
  metadata : Option (List (String × String)) := none
  keyPrefix : Option String := none
deriving DecidableEq

/-- The environment variables read by `s3Uploader.ts`. -/
structure S3Env where
  awsAccessKeyId : Option String
  awsSecretAccessKey : Option String
  awsRegion : Option String
  s3BucketName : Option String
deriving DecidableEq

/-- One `PutObjectCommand` handed to `s3Client.send` — the only S3 operation
the uploader ever issues (there is no existence check or read-back). -/
structure S3Op where
  bucket : String
  key : String
  body : Buffer
  contentType : Option String
  metadata : Option (List (String × String))
deriving DecidableEq

/-- `s3Uploader.ts` line 145: the generated object key
``` `${options.prefix || 'images/'}${timestamp}_${randomString}.webp` ```. -/
def s3FileName (options : S3UploadOptions) (d : DateTime) (rand : List (Fin 16)) : String :=
  jsOrStr options.keyPrefix "images/" ++ timestampOf d ++ "_" ++ randomStringOf rand ++ ".webp"

/-- `uploadToS3` of `s3Uploader.ts`.  `d` and `rand` stand for the wall clock
and the `Math.random` draw at the generation instant; `sendOutcome` is the
behaviour of the external `s3Client.send` network call (its error message when
it rejects).  Returns the result together with the list of S3 commands that
were actually sent.  The surrounding `catch` re-wraps any thrown error into an
`S3UploadError` carrying the same message. -/
def uploadToS3 (fileBuffer : Buffer) (options : S3UploadOptions) (env : S3Env)
    (d : DateTime) (rand : List (Fin 16)) (sendOutcome : Except String Unit) :
    Except S3UploadError String × List S3Op :=
  if !(present env.awsAccessKeyId) || !(present env.awsSecretAccessKey) ||
      !(present env.awsRegion) || !(present env.s3BucketName) then
    (Except.error { message := envMissingMsg }, [])
  else
    let fileName := s3FileName options d rand
    let cmd : S3Op :=
      { bucket := env.s3BucketName.getD ""
        key := fileName
        body := fileBuffer
        contentType := options.contentType
        metadata := options.metadata }
    match sendOutcome with
    | Except.error msg => (Except.error { message := msg }, [cmd])
    | Except.ok _ =>
        (Except.ok ("https://" ++ env.s3BucketName.getD "" ++ ".s3." ++
          env.awsRegion.getD "" ++ ".amazonaws.com/" ++ fileName), [cmd])

/-- A concrete wall-clock instant used by the closed witnesses. -/
def testDate : DateTime :=
  { year := 2024, month := 3, day := 15, hour := 14, minute := 30, second := 22, ms := 123 }

example : timestampOf testDate = "20240315_143022" := by decide

example : randomStringOf [10, 1, 11, 2, 12, 3, 13, 4] = "a1b2c3d4" := by decide

example : randomStringOf [8] = "8" := by decide

/-- The `ImageProcessingError` class of `errors.ts` (default code
`'IMAGE_PROCESSING_ERROR'`; `convertToWebP` never passes an explicit code). -/
structure ImageProcessingError where
  message : String
  code : String := "IMAGE_PROCESSING_ERROR"
deriving DecidableEq

/-- `'품질은 1-100 사이의 값이어야 합니다.'` — the message thrown by
`convertToWebP` for an out-of-range quality. -/
def qualityRangeMsg : String := "품질은 1-100 사이의 값이어야 합니다."

/-- The `WebPConversionOptions` interface of `webpConverter.ts`.  For each
field, `none` models both an absent field and an explicit `null` (the
destructuring defaults and the truthiness tests treat them alike). -/
structure WebPConversionOptions where
  quality : Option Int := none
  width : Option Int := none
  height : Option Int := none
  preserveMetadata : Option Bool := none
deriving DecidableEq

/-- One step of the `sharp` processing chain built by `convertToWebP`:
`.resize(width, height, { fit: 'inside', withoutEnlargement: true })`
or `.webp({ quality })`. -/
inductive SharpOp where
  | resize (width height : Option Int)
  | webp (quality : Int)
deriving DecidableEq

/-- JavaScript truthiness of the numeric `width`/`height` options:
`null`/`undefined` and `0` are falsy. -/
def truthyNum : Option Int → Bool
  | none => false
  | some n => n != 0

/-- `convertToWebP` of `webpConverter.ts`.  The external `sharp` engine is an
oracle mapping the input buffer and the requested operation chain to either an
output buffer or a thrown error message.  Returns the result together with the
chain of operations the engine was asked to run (`[]` when validation failed
before `sharp` was ever invoked).  The surrounding `catch` re-wraps any thrown
error into an `ImageProcessingError` carrying the same message. -/
def convertToWebP (buffer : Buffer) (options : WebPConversionOptions)
    (engine : Buffer → List SharpOp → Except String Buffer) :
    Except ImageProcessingError Buffer × List SharpOp :=
  let quality : Int := options.quality.getD 80
  if quality < 1 ∨ quality > 100 then
    (Except.error { message := qualityRangeMsg }, [])
  else
    let ops :=
      (if truthyNum options.width || truthyNum options.height then
        [SharpOp.resize options.width options.height]
      else []) ++ [SharpOp.webp quality]
    match engine buffer ops with
    | Except.error msg => (Except.error { message := msg }, ops)
    | Except.ok out => (Except.ok out, ops)

/-- The pixel-dimension semantics of a `sharp` chain: only a `resize` step
changes the dimensions (re-encoding to WebP keeps the geometry); the effect of
a `resize` step is an arbitrary engine-side function `resizeSem`. -/
def pipelineDims (resizeSem : Int → Int → Option Int → Option Int → Int × Int) :
    List SharpOp → Int × Int → Int × Int
  | [], dims => dims
  | SharpOp.resize w h :: rest, dims => pipelineDims resizeSem rest (resizeSem dims.1 dims.2 w h)
  | SharpOp.webp _ :: rest, dims => pipelineDims resizeSem rest dims

/-- An error value travelling through the route handler's `try`/`catch`
blocks, tagged by the class the `instanceof` tests inspect. -/
inductive JsError where
  | imageProcessing (message : String)
  | s3Upload (message : String)
  | other (detail : String)
deriving DecidableEq

/-- The `File` extracted from the form data (`formData.get('image')`). -/
structure FormFile where
  name : String
  type : String
  size : Nat
  content : Buffer
deriving DecidableEq

/-- The JSON body and status of a `NextResponse.json` reply; absent JSON
fields are `none`.  (`imageUrl` is the success field of
`app/api/upload/route.ts`, `fileName` the one of the authenticated variant.) -/
structure JsonResponse where
  status : Nat
  error : Option String := none
  success : Option Bool := none
  imageUrl : Option String := none
  fileName : Option String := none
deriving DecidableEq

/-- What a run of the route handler actually did: whether
`file.arrayBuffer()` was called, whether `convertToWebP` was invoked, the
`sharp` operations requested, and the S3 commands sent. -/
structure PostTrace where
  arrayBufferRead : Bool := false
  convertCalled : Bool := false
  sharpOps : List SharpOp := []
  s3Ops : List S3Op := []
deriving DecidableEq

/-- `'이미지 파일이 필요합니다.'` — missing `image` field. -/
def missingFileMsg : String := "이미지 파일이 필요합니다."

/-- `'파일 크기는 5MB를 초과할 수 없습니다.'` — size ceiling exceeded. -/
def fileSizeMsg : String := "파일 크기는 5MB를 초과할 수 없습니다."

/-- `'이미지 업로드 중 에러가 발생했습니다.'` — the generic message of the
outer catch-all handler. -/
def genericUploadErrorMsg : String := "이미지 업로드 중 에러가 발생했습니다."

/-- `'이미지 처리 오류: '` — label prefixed to `ImageProcessingError`s. -/
def imageErrorLabel : String := "이미지 처리 오류: "

/-- `'S3 업로드 오류: '` — label prefixed to `S3UploadError`s. -/
def s3ErrorLabel : String := "S3 업로드 오류: "

/-- The outer `catch` of the route handler: every error reaching it produces
the same fixed 500 response; the error value itself is only logged. -/
def handleUnexpected (_e : JsError) : JsonResponse :=
  { status := 500, error := some genericUploadErrorMsg }

/-- `route.ts` line 131: `file.name.replace(/\.[^/.]+$/, '')` — delete a final
dot followed by one or more characters none of which is a dot or a slash. -/
def stripExt (name : String) : String :=
  let rev := name.data.reverse
  let seg := rev.takeWhile (fun c => c != '.' && c != '/')
  let rest := rev.dropWhile (fun c => c != '.' && c != '/')
  match rest with
  | '.' :: remaining => if seg.isEmpty then name else { data := remaining.reverse }
  | _ => name

example : stripExt "example.jpg" = "example" := by decide
example : stripExt "archive.tar.gz" = "archive.tar" := by decide
example : stripExt "noext" = "noext" := by decide
example : stripExt "trailingdot." = "trailingdot." := by decide

/-- The `ConversionOptions` the route handler passes to `convertToWebP`
(`route.ts` lines 126–128): quality 85, nothing else. -/
def postConversionOptions : WebPConversionOptions := { quality := some 85 }

namespace UploadRoute

/-- `POST` of `app/api/upload/route.ts`.  `formDataRes` models
`request.formData()` followed by `formData.get('image')` (it may throw);
`arrayBufferOutcome` models `file.arrayBuffer()` (it may throw); `engine`,
`env`, `d`, `rand` and `sendOutcome` are threaded to the embedded
`convertToWebP` and `uploadToS3` exactly as the route calls them.  Errors of
the two known classes are mapped to 400 responses by the inner catch; anything
else reaches the outer catch and becomes the fixed 500 response. -/
def POST (formDataRes : Except JsError (Option FormFile))
    (arrayBufferOutcome : Except JsError Unit)
    (engine : Buffer → List SharpOp → Except String Buffer)
    (env : S3Env) (d : DateTime) (rand : List (Fin 16))
    (sendOutcome : Except String Unit) : JsonResponse × PostTrace :=
  match formDataRes with
  | Except.error e => (handleUnexpected e, {})
  | Except.ok none => ({ status := 400, error := some missingFileMsg }, {})
  | Except.ok (some file) =>
    if file.size > 5 * 1024 * 1024 then
      ({ status := 400, error := some fileSizeMsg }, {})
    else
      match arrayBufferOutcome with
      | Except.error e => (handleUnexpected e, { arrayBufferRead := true })
      | Except.ok _ =>
        let buffer := file.content
        let conv := convertToWebP buffer postConversionOptions engine
        match conv.1 with
        | Except.error e =>
            ({ status := 400, error := some (imageErrorLabel ++ e.message) },
             { arrayBufferRead := true, convertCalled := true, sharpOps := conv.2 })
        | Except.ok webpBuffer =>
          let originalName := stripExt file.name
          let up := uploadToS3 webpBuffer
            { contentType := some "image/webp"
              keyPrefix := some "images/"
              metadata := some [("originalName", originalName), ("originalType", file.type)] }
            env d rand sendOutcome
          match up.1 with
          | Except.error e =>
              ({ status := 400, error := some (s3ErrorLabel ++ e.message) },
               { arrayBufferRead := true, convertCalled := true,
                 sharpOps := conv.2, s3Ops := up.2 })
          | Except.ok url =>
              ({ status := 200, success := some true, imageUrl := some url },
               { arrayBufferRead := true, convertCalled := true,
                 sharpOps := conv.2, s3Ops := up.2 })

end UploadRoute

/-- The `AuthResult` interface of `auth.ts`. -/
structure AuthResult where
  success : Bool
  error : Option String := none
deriving DecidableEq

/-- The parts of the request `validateApiKey` inspects: the `authorization`
header, the `x-api-key` header and the `api_key` query parameter (`none` for
an absent header/parameter). -/
structure AuthRequest where
  authorizationHeader : Option String := none
  xApiKeyHeader : Option String := none
  apiKeyQueryParam : Option String := none
deriving DecidableEq

/-- `'API 키가 설정되지 않았습니다.'` — configured secret missing. -/
def apiKeyNotConfiguredMsg : String := "API 키가 설정되지 않았습니다."

/-- `'API 키가 필요합니다. …'` — no key supplied by the caller. -/
def apiKeyRequiredMsg : String :=
  "API 키가 필요합니다. Authorization 헤더, X-API-Key 헤더, 또는 api_key 쿼리 파라미터로 제공해주세요."

/-- `'유효하지 않은 API 키입니다.'` — supplied key does not match. -/
def apiKeyInvalidMsg : String := "유효하지 않은 API 키입니다."

/-- `validateApiKey` of `auth.ts`.  `apiSecretKey` is
`process.env.IMAGE_ROUTE_API_KEY`.  The `providedApiKey` chain follows the
source's truthiness tests: a `Bearer` prefix match yields `substring(7)`, an
empty extracted key (or absent header) falls through to `x-api-key`, then to
the `api_key` query parameter. -/
def validateApiKey (apiSecretKey : Option String) (request : AuthRequest) : AuthResult :=
  if !(present apiSecretKey) then
    { success := false, error := some apiKeyNotConfiguredMsg }
  else
    let fromBearer : Option String :=
      match request.authorizationHeader with
      | some h => if h.startsWith ("Bearer ") then some (jsSubstringFrom h 7) else none
      | none => none
    let p2 : Option String := if present fromBearer then fromBearer else request.xApiKeyHeader
    let p3 : Option String := if present p2 then p2 else request.apiKeyQueryParam
    if !(present p3) then
      { success := false, error := some apiKeyRequiredMsg }
    else if p3 != apiSecretKey then
      { success := false, error := some apiKeyInvalidMsg }
    else
      { success := true }

/-- `withApiKeyAuth` of `auth.ts`: run `validateApiKey`; on failure return a
401 JSON response carrying the validation error, otherwise run the handler. -/
def withApiKeyAuth {α : Type} (apiSecretKey : Option String) (request : AuthRequest)
    (handler : AuthRequest → α) : JsonResponse ⊕ α :=
  let authResult := validateApiKey apiSecretKey request
  if authResult.success then
    Sum.inr (handler request)
  else
    Sum.inl { status := 401, error := authResult.error }

namespace AuthUploadRoute

/-- `POST` of the authenticated upload route (`src/unnamed/part_000`): runs
`validateApiKey` first and returns 401 with the validation error on any auth
failure, then proceeds exactly like `UploadRoute.POST`, except that the
success body uses the `fileName` field for the returned URL. -/
def POST (apiSecretKey : Option String) (authReq : AuthRequest)
    (formDataRes : Except JsError (Option FormFile))
    (arrayBufferOutcome : Except JsError Unit)
    (engine : Buffer → List SharpOp → Except String Buffer)
    (env : S3Env) (d : DateTime) (rand : List (Fin 16))
    (sendOutcome : Except String Unit) : JsonResponse × PostTrace :=
  let authResult := validateApiKey apiSecretKey authReq
  if !authResult.success then
    ({ status := 401, error := authResult.error }, {})
  else
    match formDataRes with
    | Except.error e => (handleUnexpected e, {})
    | Except.ok none => ({ status := 400, error := some missingFileMsg }, {})
    | Except.ok (some file) =>
      if file.size > 5 * 1024 * 1024 then
        ({ status := 400, error := some fileSizeMsg }, {})
      else
        match arrayBufferOutcome with
        | Except.error e => (handleUnexpected e, { arrayBufferRead := true })
        | Except.ok _ =>
          let buffer := file.content
          let conv := convertToWebP buffer postConversionOptions engine
          match conv.1 with
          | Except.error e =>
              ({ status := 400, error := some (imageErrorLabel ++ e.message) },
               { arrayBufferRead := true, convertCalled := true, sharpOps := conv.2 })
          | Except.ok webpBuffer =>
            let originalName := stripExt file.name
            let up := uploadToS3 webpBuffer
              { contentType := some "image/webp"
                keyPrefix := some "images/"
                metadata := some [("originalName", originalName), ("originalType", file.type)] }
              env d rand sendOutcome
            match up.1 with
            | Except.error e =>
                ({ status := 400, error := some (s3ErrorLabel ++ e.message) },
                 { arrayBufferRead := true, convertCalled := true,
                   sharpOps := conv.2, s3Ops := up.2 })
            | Except.ok url =>
                ({ status := 200, success := some true, fileName := some url },
                 { arrayBufferRead := true, convertCalled := true,
                   sharpOps := conv.2, s3Ops := up.2 })

end AuthUploadRoute

/-- A codec-engine oracle that re-encodes without failing, used by witnesses. -/
def okEngine : Buffer → List SharpOp → Except String Buffer :=
  fun buffer _ => Except.ok buffer

/-- A fully-populated environment used by witnesses. -/
def testEnv : S3Env :=
  { awsAccessKeyId := some "AKIAEXAMPLE"
    awsSecretAccessKey := some "SECRETEXAMPLE"
    awsRegion := some "ap-northeast-2"
    s3BucketName := some "vans-bucket" }

/-- A concrete `Math.random` draw (hex fraction `0.a1b2c3d4`). -/
def testRand : List (Fin 16) := [10, 1, 11, 2, 12, 3, 13, 4]

/-- A small in-limit upload file used by witnesses. -/
def smallTestFile : FormFile :=
  { name := "photo.jpg", type := "image/jpeg", size := 2048, content := [137, 80] }

/-- An environment whose bucket name is absent, used by witnesses. -/
def noBucketTestEnv : S3Env :=
  { awsAccessKeyId := some "AKIAEXAMPLE"
    awsSecretAccessKey := some "SECRETEXAMPLE"
    awsRegion := some "ap-northeast-2"
    s3BucketName := none }

example : s3FileName {} testDate testRand = "images/20240315_143022_a1b2c3d4.webp" := by decide

/-- String concatenation is associative (helper for key-shape reasoning). -/
theorem strAppendAssoc (a b c : String) : a ++ b ++ c = a ++ (b ++ c) :=
  String.ext (by simp [String.data_append, List.append_assoc])

/-- The keys of the commands `uploadToS3` sends: none when an environment
coordinate is missing, otherwise exactly the generated file name. -/
theorem uploadToS3_keys (b : Buffer) (o : S3UploadOptions) (env : S3Env)
    (d : DateTime) (rand : List (Fin 16)) (send : Except String Unit) :
    (uploadToS3 b o env d rand send).2.map S3Op.key =
      (if !(present env.awsAccessKeyId) || !(present env.awsSecretAccessKey) ||
          !(present env.awsRegion) || !(present env.s3BucketName) then []
       else [s3FileName o d rand]) := by
  unfold uploadToS3
  split
  · rfl
  · cases send <;> rfl

/-- C1: an upload whose payload exceeds 5 MiB is answered with the 400
size-exceeded response; `file.arrayBuffer()` is never called, `convertToWebP`
is never invoked, and no `sharp` or S3 operation happens. -/
theorem oversized_upload_rejected_before_transcode
    (file : FormFile) (h : file.size > 5 * 1024 * 1024)
    (abuf : Except JsError Unit) (engine : Buffer → List SharpOp → Except String Buffer)
    (env : S3Env) (d : DateTime) (rand : List (Fin 16)) (send : Except String Unit) :
    UploadRoute.POST (Except.ok (some file)) abuf engine env d rand send =
      ({ status := 400, error := some fileSizeMsg },
       { arrayBufferRead := false, convertCalled := false, sharpOps := [], s3Ops := [] }) := by
  simp only [UploadRoute.POST]
  rw [if_pos h]

/-- C1 witness: a 5 MiB + 1 byte file is rejected without reading or
transcoding. -/
theorem oversized_upload_rejected_before_transcode_witness :
    ({ name := "big.jpg", type := "image/jpeg", size := 5242881, content := [] } : FormFile).size >
        5 * 1024 * 1024 ∧
    UploadRoute.POST
        (Except.ok (some { name := "big.jpg", type := "image/jpeg", size := 5242881, content := [] }))
        (Except.ok ()) okEngine testEnv testDate testRand (Except.ok ()) =
      ({ status := 400, error := some fileSizeMsg },
       { arrayBufferRead := false, convertCalled := false, sharpOps := [], s3Ops := [] }) :=
  ⟨by decide,
   oversized_upload_rejected_before_transcode
     { name := "big.jpg", type := "image/jpeg", size := 5242881, content := [] }
     (by decide) (Except.ok ()) okEngine testEnv testDate testRand (Except.ok ())⟩

/-- C2: a quality outside [1,100] makes `convertToWebP` fail with the
validation `ImageProcessingError` while the codec engine is never invoked (the
operation chain is empty), and whenever the conversion step of the route
handler fails, no S3 command is ever sent. -/
theorem out_of_range_quality_fails_before_codec
    (buffer : Buffer) (options : WebPConversionOptions)
    (engine : Buffer → List SharpOp → Except String Buffer)
    (h : options.quality.getD 80 < 1 ∨ options.quality.getD 80 > 100) :
    convertToWebP buffer options engine = (Except.error { message := qualityRangeMsg }, []) ∧
    (∀ (file : FormFile) (abuf : Except JsError Unit)
        (engine2 : Buffer → List SharpOp → Except String Buffer)
        (env : S3Env) (d : DateTime) (rand : List (Fin 16)) (send : Except String Unit)
        (e : ImageProcessingError),
        (convertToWebP file.content postConversionOptions engine2).1 = Except.error e →
        (UploadRoute.POST (Except.ok (some file)) abuf engine2 env d rand send).2.s3Ops = []) := by
  constructor
  · unfold convertToWebP
    rw [if_pos h]
  · intro file abuf engine2 env d rand send e hconv
    simp only [UploadRoute.POST]
    split
    · rfl
    · cases abuf with
      | error e2 => rfl
      | ok a =>
        dsimp only
        rw [hconv]

/-- C2 witness: quality 0 is rejected before the codec engine runs. -/
theorem out_of_range_quality_fails_before_codec_witness :
    (({ quality := some 0 } : WebPConversionOptions).quality.getD 80 < 1 ∨
      ({ quality := some 0 } : WebPConversionOptions).quality.getD 80 > 100) ∧
    convertToWebP [] { quality := some 0 } okEngine =
      (Except.error { message := qualityRangeMsg }, []) :=
  ⟨by decide,
   (out_of_range_quality_fails_before_codec [] { quality := some 0 } okEngine (by decide)).1⟩

/-- C9: when neither width nor height is supplied, the chain `convertToWebP`
asks the engine to run contains no resize step (it is exactly one WebP
encode), so the pixel dimensions pass through unchanged for every possible
engine resize semantics; and the route handler's own conversion options supply
neither width nor height. -/
theorem no_resize_when_dimensions_absent
    (buffer : Buffer) (options : WebPConversionOptions)
    (engine : Buffer → List SharpOp → Except String Buffer)
    (hw : options.width = none) (hh : options.height = none)
    (hq1 : 1 ≤ options.quality.getD 80) (hq2 : options.quality.getD 80 ≤ 100) :
    (convertToWebP buffer options engine).2 = [SharpOp.webp (options.quality.getD 80)] ∧
    (∀ (resizeSem : Int → Int → Option Int → Option Int → Int × Int) (dims : Int × Int),
        pipelineDims resizeSem (convertToWebP buffer options engine).2 dims = dims) ∧
    postConversionOptions.width = none ∧ postConversionOptions.height = none := by
  have hops : (convertToWebP buffer options engine).2 =
      [SharpOp.webp (options.quality.getD 80)] := by
    unfold convertToWebP
    rw [if_neg (by omega), hw, hh]
    simp only [truthyNum, Bool.or_self]
    rw [if_neg (by decide : ¬(false = true))]
    simp only [List.nil_append]
    cases engine buffer [SharpOp.webp (options.quality.getD 80)] <;> rfl
  refine ⟨hops, ?_, rfl, rfl⟩
  intro resizeSem dims
  rw [hops]
  rfl

/-- C6: with all environment coordinates present and a successful write,
`uploadToS3` returns exactly the URL
`https://<bucket>.s3.<region>.amazonaws.com/<key>` for the generated key,
which starts with the configured prefix and ends in `.webp`; the trace shows a
single `PutObjectCommand` and nothing else — in particular no existence check
after the write. -/
theorem uploadToS3_success_url_shape
    (b : Buffer) (o : S3UploadOptions) (env : S3Env) (d : DateTime) (rand : List (Fin 16))
    (h1 : present env.awsAccessKeyId = true) (h2 : present env.awsSecretAccessKey = true)
    (h3 : present env.awsRegion = true) (h4 : present env.s3BucketName = true) :
    uploadToS3 b o env d rand (Except.ok ()) =
      (Except.ok ("https://" ++ env.s3BucketName.getD "" ++ ".s3." ++ env.awsRegion.getD "" ++
          ".amazonaws.com/" ++ s3FileName o d rand),
       [{ bucket := env.s3BucketName.getD "", key := s3FileName o d rand, body := b,
          contentType := o.contentType, metadata := o.metadata }]) ∧
    (∃ rest, s3FileName o d rand = jsOrStr o.keyPrefix "images/" ++ rest) ∧
    (∃ stem, s3FileName o d rand = stem ++ ".webp") := by
  refine ⟨?_, ?_, ?_⟩
  · unfold uploadToS3
    rw [if_neg (by simp [h1, h2, h3, h4])]
  · exact ⟨timestampOf d ++ "_" ++ randomStringOf rand ++ ".webp", by
      unfold s3FileName
      simp only [strAppendAssoc]⟩
  · exact ⟨jsOrStr o.keyPrefix "images/" ++ timestampOf d ++ "_" ++ randomStringOf rand, rfl⟩

/-- C6 witness: a concrete successful upload produces the deterministic URL
for key `images/20240315_143022_a1b2c3d4.webp`. -/
theorem uploadToS3_success_url_shape_witness :
    (present testEnv.awsAccessKeyId = true ∧ present testEnv.awsSecretAccessKey = true ∧
      present testEnv.awsRegion = true ∧ present testEnv.s3BucketName = true) ∧
    (uploadToS3 [1] {} testEnv testDate testRand (Except.ok ()) =
      (Except.ok ("https://" ++ testEnv.s3BucketName.getD "" ++ ".s3." ++
          testEnv.awsRegion.getD "" ++ ".amazonaws.com/" ++ s3FileName {} testDate testRand),
       [{ bucket := testEnv.s3BucketName.getD "", key := s3FileName {} testDate testRand,
          body := [1], contentType := none, metadata := none }]) ∧
     (∃ rest, s3FileName {} testDate testRand = jsOrStr ({} : S3UploadOptions).keyPrefix "images/" ++ rest) ∧
     (∃ stem, s3FileName {} testDate testRand = stem ++ ".webp")) :=
  ⟨⟨rfl, rfl, rfl, rfl⟩,
   uploadToS3_success_url_shape [1] {} testEnv testDate testRand rfl rfl rfl rfl⟩

/-- C7: when any required environment coordinate (access key, secret key,
region or bucket) is absent, `uploadToS3` fails with the `S3UploadError`
carrying the missing-environment-variable message and sends no S3 command at
all (the network call is never attempted). -/
theorem missing_env_coordinate_blocks_upload
    (env : S3Env)
    (h : present env.awsAccessKeyId = false ∨ present env.awsSecretAccessKey = false ∨
         present env.awsRegion = false ∨ present env.s3BucketName = false)
    (b : Buffer) (o : S3UploadOptions) (d : DateTime) (rand : List (Fin 16))
    (send : Except String Unit) :
    uploadToS3 b o env d rand send = (Except.error { message := envMissingMsg }, []) := by
  unfold uploadToS3
  rcases h with h | h | h | h <;> rw [if_pos (by simp [h])]

/-- C7 witness: an environment lacking the bucket name fails with the
missing-environment message and an empty command trace. -/
theorem missing_env_coordinate_blocks_upload_witness :
    present noBucketTestEnv.s3BucketName = false ∧
    uploadToS3 [1] {} noBucketTestEnv testDate testRand (Except.ok ()) =
      (Except.error { message := envMissingMsg }, []) :=
  ⟨rfl,
   missing_env_coordinate_blocks_upload noBucketTestEnv
     (Or.inr (Or.inr (Or.inr rfl))) [1] {} testDate testRand (Except.ok ())⟩

/-- C10: with `options.prefix` set to the empty string, the generated key of
every command `uploadToS3` sends still begins with the default prefix
`images/`; an empty prefix behaves exactly like an absent one. -/
theorem empty_prefix_defaults_to_images
    (env : S3Env)
    (h1 : present env.awsAccessKeyId = true) (h2 : present env.awsSecretAccessKey = true)
    (h3 : present env.awsRegion = true) (h4 : present env.s3BucketName = true)
    (b : Buffer) (ct : Option String) (md : Option (List (String × String)))
    (d : DateTime) (rand : List (Fin 16)) (send : Except String Unit) :
    (∃ rest,
      (uploadToS3 b { contentType := ct, metadata := md, keyPrefix := some "" }
          env d rand send).2.map S3Op.key = ["images/" ++ rest]) ∧
    uploadToS3 b { contentType := ct, metadata := md, keyPrefix := some "" } env d rand send =
      uploadToS3 b { contentType := ct, metadata := md, keyPrefix := none } env d rand send := by
  constructor
  · refine ⟨timestampOf d ++ "_" ++ randomStringOf rand ++ ".webp", ?_⟩
    rw [uploadToS3_keys]
    rw [if_neg (by simp [h1, h2, h3, h4])]
    unfold s3FileName
    simp only [strAppendAssoc]
    rfl
  · rfl

/-- C10 witness: a concrete empty-prefix upload generates a key under
`images/` and coincides with the absent-prefix upload. -/
theorem empty_prefix_defaults_to_images_witness :
    (present testEnv.awsAccessKeyId = true ∧ present testEnv.awsSecretAccessKey = true ∧
      present testEnv.awsRegion = true ∧ present testEnv.s3BucketName = true) ∧
    ((∃ rest,
        (uploadToS3 [1] { contentType := some "image/webp", metadata := none, keyPrefix := some "" }
            testEnv testDate testRand (Except.ok ())).2.map S3Op.key = ["images/" ++ rest]) ∧
      uploadToS3 [1] { contentType := some "image/webp", metadata := none, keyPrefix := some "" }
          testEnv testDate testRand (Except.ok ()) =
        uploadToS3 [1] { contentType := some "image/webp", metadata := none, keyPrefix := none }
          testEnv testDate testRand (Except.ok ())) :=
  ⟨⟨rfl, rfl, rfl, rfl⟩,
   empty_prefix_defaults_to_images testEnv rfl rfl rfl rfl [1] (some "image/webp") none
     testDate testRand (Except.ok ())⟩

/-- C8: an error raised inside `POST` that is neither an
`ImageProcessingError` nor an `S3UploadError` — whether it is thrown while
parsing the form data or while reading the file into a buffer, the only places
such errors can arise — is answered by the fixed generic 500 response, whose
body never depends on the error's content. -/
theorem unexpected_errors_get_generic_500
    (e : JsError)
    (hni : ∀ m, e ≠ JsError.imageProcessing m) (hns : ∀ m, e ≠ JsError.s3Upload m)
    (abuf : Except JsError Unit) (engine : Buffer → List SharpOp → Except String Buffer)
    (env : S3Env) (d : DateTime) (rand : List (Fin 16)) (send : Except String Unit) :
    (UploadRoute.POST (Except.error e) abuf engine env d rand send).1 =
      { status := 500, error := some genericUploadErrorMsg } ∧
    (∀ (file : FormFile), file.size ≤ 5 * 1024 * 1024 →
      (UploadRoute.POST (Except.ok (some file)) (Except.error e) engine env d rand send).1 =
        { status := 500, error := some genericUploadErrorMsg }) := by
  constructor
  · rfl
  · intro file hsize
    simp only [UploadRoute.POST]
    rw [if_neg (by omega)]
    rfl

/-- C8 witness: a raw error carrying internal detail yields the fixed generic
500 body with no trace of that detail, at both raise sites. -/
theorem unexpected_errors_get_generic_500_witness :
    ((∀ m, JsError.other "stack: secret detail" ≠ JsError.imageProcessing m) ∧
      (∀ m, JsError.other "stack: secret detail" ≠ JsError.s3Upload m) ∧
      smallTestFile.size ≤ 5 * 1024 * 1024) ∧
    (UploadRoute.POST (Except.error (JsError.other "stack: secret detail")) (Except.ok ())
        okEngine testEnv testDate testRand (Except.ok ())).1 =
      { status := 500, error := some genericUploadErrorMsg } ∧
    (UploadRoute.POST (Except.ok (some smallTestFile))
        (Except.error (JsError.other "stack: secret detail"))
        okEngine testEnv testDate testRand (Except.ok ())).1 =
      { status := 500, error := some genericUploadErrorMsg } :=
  ⟨⟨fun _ h => JsError.noConfusion h, fun _ h => JsError.noConfusion h, by decide⟩,
   (unexpected_errors_get_generic_500 (JsError.other "stack: secret detail")
       (fun _ h => JsError.noConfusion h) (fun _ h => JsError.noConfusion h)
       (Except.ok ()) okEngine testEnv testDate testRand (Except.ok ())).1,
   (unexpected_errors_get_generic_500 (JsError.other "stack: secret detail")
       (fun _ h => JsError.noConfusion h) (fun _ h => JsError.noConfusion h)
       (Except.ok ()) okEngine testEnv testDate testRand (Except.ok ())).2
     smallTestFile (by decide)⟩

/-- The storage keys a run of the route handler sends to S3, expressed without
any reference to the file's declared name: the key is the independently
generated `s3FileName` for prefix `images/` (or nothing when a step failed
first). -/
theorem POST_s3_keys (f : FormFile) (abuf : Except JsError Unit)
    (engine : Buffer → List SharpOp → Except String Buffer)
    (env : S3Env) (d : DateTime) (rand : List (Fin 16)) (send : Except String Unit) :
    (UploadRoute.POST (Except.ok (some f)) abuf engine env d rand send).2.s3Ops.map S3Op.key =
      if f.size > 5 * 1024 * 1024 then []
      else
        match abuf with
        | Except.error _ => []
        | Except.ok _ =>
          match (convertToWebP f.content postConversionOptions engine).1 with
          | Except.error _ => []
          | Except.ok _ =>
            if !(present env.awsAccessKeyId) || !(present env.awsSecretAccessKey) ||
                !(present env.awsRegion) || !(present env.s3BucketName) then []
            else [s3FileName { keyPrefix := some "images/" } d rand] := by
  simp only [UploadRoute.POST]
  by_cases hsz : f.size > 5 * 1024 * 1024
  · rw [if_pos hsz, if_pos hsz]
    rfl
  · rw [if_neg hsz, if_neg hsz]
    cases abuf with
    | error e => rfl
    | ok a =>
      dsimp only
      cases hconv : (convertToWebP f.content postConversionOptions engine).1 with
      | error e => rfl
      | ok webpBuffer =>
        dsimp only
        cases hup : (uploadToS3 webpBuffer
            { contentType := some "image/webp", keyPrefix := some "images/",
              metadata := some [("originalName", stripExt f.name), ("originalType", f.type)] }
            env d rand send).1 with
        | error e =>
            dsimp only
            rw [uploadToS3_keys]
            rfl
        | ok url =>
            dsimp only
            rw [uploadToS3_keys]
            rfl

/-- C3: two upload requests that differ only in the declared filename (same
payload, type and size, same clock instant, random draw, engine and network
behaviour) lead to identical storage keys: the filename never influences the
generated key, which is independently built from prefix, timestamp and random
suffix. -/
theorem storage_key_independent_of_filename
    (f1 f2 : FormFile) (hs : f1.size = f2.size) (ht : f1.type = f2.type)
    (hc : f1.content = f2.content)
    (abuf : Except JsError Unit) (engine : Buffer → List SharpOp → Except String Buffer)
    (env : S3Env) (d : DateTime) (rand : List (Fin 16)) (send : Except String Unit) :
    (UploadRoute.POST (Except.ok (some f1)) abuf engine env d rand send).2.s3Ops.map S3Op.key =
      (UploadRoute.POST (Except.ok (some f2)) abuf engine env d rand send).2.s3Ops.map S3Op.key := by
  rw [POST_s3_keys, POST_s3_keys, hs, hc]

/-- C3 witness: two concrete requests differing only in filename produce the
same key list. -/
theorem storage_key_independent_of_filename_witness :
    (({ name := "holiday.jpg", type := "image/jpeg", size := 2048, content := [137, 80] } : FormFile).size =
        smallTestFile.size ∧
      ({ name := "holiday.jpg", type := "image/jpeg", size := 2048, content := [137, 80] } : FormFile).type =
        smallTestFile.type ∧
      ({ name := "holiday.jpg", type := "image/jpeg", size := 2048, content := [137, 80] } : FormFile).content =
        smallTestFile.content) ∧
    (UploadRoute.POST
        (Except.ok (some { name := "holiday.jpg", type := "image/jpeg", size := 2048, content := [137, 80] }))
        (Except.ok ()) okEngine testEnv testDate testRand (Except.ok ())).2.s3Ops.map S3Op.key =
      (UploadRoute.POST (Except.ok (some smallTestFile))
        (Except.ok ()) okEngine testEnv testDate testRand (Except.ok ())).2.s3Ops.map S3Op.key :=
  ⟨⟨rfl, rfl, rfl⟩,
   storage_key_independent_of_filename
     { name := "holiday.jpg", type := "image/jpeg", size := 2048, content := [137, 80] }
     smallTestFile rfl rfl rfl
     (Except.ok ()) okEngine testEnv testDate testRand (Except.ok ())⟩

/-- C4: the code's suffix `Math.random().toString(16).substring(2, 10)` is
NOT always 8 characters, contradicting the claim and the function's own doc
comment (`랜덤 문자열: 8자리 16진수`, example `a1b2c3d4`).  The reachable draw
0.5 prints as `"0.8"`, so the suffix is the single character `"8"`.  The
suffix always consists of lowercase hexadecimal digits of length at most 8,
but not of length exactly 8. -/
theorem random_suffix_not_always_8_chars :
    fracValue [8] = 1 / 2 ∧
    jsToString16Frac [8] = "0.8" ∧
    randomStringOf [8] = "8" ∧
    (randomStringOf [8]).length = 1 ∧
    (randomStringOf [8]).length ≠ 8 ∧
    s3FileName {} testDate [8] = "images/20240315_143022_8.webp" :=
  ⟨by simp only [fracValue, List.foldr, show ((8 : Fin 16) : ℕ) = 8 from rfl]; norm_num,
   by decide, by decide, by decide, by decide, by decide⟩

/-- C5 counterexample: with the configured secret absent from the environment,
the authenticated route surfaces `validateApiKey`'s misconfiguration failure
to the caller with the client-error status 401 — the claim that it is *not*
surfaced with 401 is false on this code. -/
theorem missing_secret_is_surfaced_as_401_counterexample :
    (AuthUploadRoute.POST none {} (Except.ok (some smallTestFile)) (Except.ok ())
        okEngine testEnv testDate testRand (Except.ok ())).1 =
      { status := 401, error := some apiKeyNotConfiguredMsg } := by
  decide

/-- C5 amended: when the configured API secret is absent, `validateApiKey`
does report a distinguished misconfiguration failure (its own message, before
any caller-supplied key is inspected), but every caller surfaces that failure
exactly like a client auth error: the authenticated `POST` returns status 401
with that message, and `withApiKeyAuth` returns the 401 response instead of
running the handler. -/
theorem missing_secret_fails_with_misconfig_message_but_401
    (apiSecretKey : Option String) (h : present apiSecretKey = false)
    (authReq : AuthRequest)
    (formDataRes : Except JsError (Option FormFile)) (abuf : Except JsError Unit)
    (engine : Buffer → List SharpOp → Except String Buffer)
    (env : S3Env) (d : DateTime) (rand : List (Fin 16)) (send : Except String Unit)
    (α : Type) (handler : AuthRequest → α) :
    validateApiKey apiSecretKey authReq =
      { success := false, error := some apiKeyNotConfiguredMsg } ∧
    (AuthUploadRoute.POST apiSecretKey authReq formDataRes abuf engine env d rand send).1 =
      { status := 401, error := some apiKeyNotConfiguredMsg } ∧
    withApiKeyAuth apiSecretKey authReq handler =
      Sum.inl { status := 401, error := some apiKeyNotConfiguredMsg } := by
  have hv : validateApiKey apiSecretKey authReq =
      { success := false, error := some apiKeyNotConfiguredMsg } := by
    unfold validateApiKey
    rw [h]
    rfl
  refine ⟨hv, ?_, ?_⟩
  · unfold AuthUploadRoute.POST
    rw [hv]
    rfl
  · unfold withApiKeyAuth
    rw [hv]
    rfl

/-- C5 amended witness: with no secret configured, a concrete request gets the
misconfiguration message over a 401 response from both entry points. -/
theorem missing_secret_fails_with_misconfig_message_but_401_witness :
    present (none : Option String) = false ∧
    validateApiKey none {} = { success := false, error := some apiKeyNotConfiguredMsg } ∧
    (AuthUploadRoute.POST none {} (Except.ok (some smallTestFile)) (Except.ok ())
        okEngine testEnv testDate testRand (Except.ok ())).1 =
      { status := 401, error := some apiKeyNotConfiguredMsg } ∧
    withApiKeyAuth none {} (fun _ => (0 : Nat)) =
      Sum.inl { status := 401, error := some apiKeyNotConfiguredMsg } :=
  ⟨rfl,
   missing_secret_fails_with_misconfig_message_but_401 none rfl {}
     (Except.ok (some smallTestFile)) (Except.ok ()) okEngine testEnv testDate testRand
     (Except.ok ()) Nat (fun _ => 0)⟩

/-- C9 witness: the default options (quality 80) produce a single encode step
and leave concrete dimensions untouched. -/
theorem no_resize_when_dimensions_absent_witness :
    (({} : WebPConversionOptions).width = none ∧ ({} : WebPConversionOptions).height = none ∧
      1 ≤ ({} : WebPConversionOptions).quality.getD 80 ∧
      ({} : WebPConversionOptions).quality.getD 80 ≤ 100) ∧
    (convertToWebP [] {} okEngine).2 = [SharpOp.webp (({} : WebPConversionOptions).quality.getD 80)] ∧
    (∀ (resizeSem : Int → Int → Option Int → Option Int → Int × Int) (dims : Int × Int),
        pipelineDims resizeSem (convertToWebP [] {} okEngine).2 dims = dims) ∧
    postConversionOptions.width = none ∧ postConversionOptions.height = none :=
  ⟨⟨rfl, rfl, by decide, by decide⟩,
   no_resize_when_dimensions_absent [] {} okEngine rfl rfl (by decide) (by decide)⟩
